import Mathlib

/-!
Verification of the USD→PEN exchange dashboard (`src/currency.py`).

The script's decision core is embedded shallowly:
* rates are rationals (`ℚ`); pandas `Series` of closes become `List ℚ`
  (a raw `Close` column with possible NaN holes becomes `List (Option ℚ)`,
  and `dropna` becomes `List.filterMap id`);
* the three averages (`avg7`, `avg30`, `avg365`, lines 172-175), the guidance
  `score` (lines 183-186) and the recommendation branch (lines 189-192)
  are pure functions;
* the session-state load block (lines 89-91) and auto-refresh timer
  (lines 197-203) are explicit state-passing functions.
-/

namespace Soldol

/-- A fetched quote: `{"rate": ..., "timestamp": ...}` from
`fetch_latest_rate` (line 61).  The timestamp is abstracted to a `Nat`. -/
structure Quote where
  rate : ℚ
  timestamp : Nat
deriving DecidableEq, Repr

/-- `df["Close"].dropna().iloc[-1]` on a close column with possible NaN
holes: drop the missing values and take the last one, `none` when the
resulting column is empty (pandas raises `IndexError` there). -/
def lastValidClose (closes : List (Option ℚ)) : Option ℚ :=
  (closes.filterMap id).getLast?

/-- `fetch_latest_rate` (lines 54-61): download the 1-minute intraday
frame; if it is empty, download the daily frame instead; the rate is the
last non-NaN close of the chosen frame.  `none` models the `IndexError`
raised when no such close exists. -/
def fetch_latest_rate (intraday daily : List (Option ℚ)) : Option ℚ :=
  let df := if intraday.isEmpty then daily else intraday
  lastValidClose df

/-- Arithmetic mean of a list of rationals (pandas `Series.mean`). -/
def mean (l : List ℚ) : ℚ := l.sum / l.length

/-- Python slice `l[-n:]`: the last `n` entries of `l` (all of `l` when it
is shorter than `n`). -/
def lastN (n : Nat) (l : List ℚ) : List ℚ := l.drop (l.length - n)

/-- Line 173: `avg7 = float(hist365[-7:].mean()) if len(hist365) >= 7 else current_rate`. -/
def avg7 (hist365 : List ℚ) (current_rate : ℚ) : ℚ :=
  if 7 ≤ hist365.length then mean (lastN 7 hist365) else current_rate

/-- Line 174: `avg30 = float(hist365[-30:].mean()) if len(hist365) >= 30 else current_rate`. -/
def avg30 (hist365 : List ℚ) (current_rate : ℚ) : ℚ :=
  if 30 ≤ hist365.length then mean (lastN 30 hist365) else current_rate

/-- Line 175: `avg365 = float(hist365.mean()) if len(hist365) >= 1 else current_rate`.
Note the guard is `len >= 1`, not `len >= 365`, and the mean ranges over the
whole series, not its last 365 entries. -/
def avg365 (hist365 : List ℚ) (current_rate : ℚ) : ℚ :=
  if 1 ≤ hist365.length then mean hist365 else current_rate

/-- Lines 183-186: the guidance score.  Starts at `0.0`, adds `0.30` when
`current_rate < avg365`, `0.50` when `current_rate < avg30`, `0.20` when
`current_rate < avg7`. -/
def score (current a7 a30 a365 : ℚ) : ℚ :=
  (if current < a365 then (30 : ℚ)/100 else 0) +
  (if current < a30 then (50 : ℚ)/100 else 0) +
  (if current < a7 then (20 : ℚ)/100 else 0)

/-- The two recommendation banners of lines 189-192. -/
inductive Recommendation where
  | buy
  | waitSell
deriving DecidableEq, Repr

/-- Lines 189-192: `BUY` iff `score > 0.5`, else `WAIT / SELL`. -/
def recommend (s : ℚ) : Recommendation :=
  if s > 1/2 then Recommendation.buy else Recommendation.waitSell

/-- Modelled from the spec: §4.3's scorer as written, “add 0.30 if
`current < avg365`, add 0.50 if `current < avg30`, add 0.20 if
`current < avg7`; sum is the score”. -/
def specScore (current a7 a30 a365 : ℚ) : ℚ :=
  (if current < a365 then (3 : ℚ)/10 else 0) +
  (if current < a30 then (1 : ℚ)/2 else 0) +
  (if current < a7 then (1 : ℚ)/5 else 0)

/-- Lines 89-91, the load/refresh block:

```
if auto_refresh or "fx" not in st.session_state:
    st.session_state["fx"] = fetch_latest_rate()
```

Given the auto-refresh flag, the session state's `"fx"` entry (if any)
and the quote `fetch_latest_rate()` would return on this run, yields the
quote the render uses and whether `fetch_latest_rate` was invoked.
`st.experimental_rerun()` (the "Refresh now" button, line 82) reruns the
script with the session state intact, so a manual refresh is one more
evaluation of this function on the same session state. -/
def loadFx (auto_refresh : Bool) (session_fx : Option Quote) (fetched : Quote) :
    Quote × Bool :=
  match session_fx with
  | none => (fetched, true)
  | some q => if auto_refresh then (fetched, true) else (q, false)

/-- Line 199: `remaining = max(0, 60 - elapsed)`. -/
def remainingSeconds (elapsed : ℚ) : ℚ := max 0 (60 - elapsed)

/-- Lines 197-203: the auto-refresh timer reruns the script exactly when
the checkbox is on and `remaining < 1`. -/
def autoRefreshTriggers (auto_refresh : Bool) (elapsed : ℚ) : Bool :=
  auto_refresh && decide (remainingSeconds elapsed < 1)

/-- The chart section (lines 130-165): a line chart over the fetched
series with a rule at the current rate when the series is non-empty,
otherwise the `st.error("No historical data available ...")` notice. -/
inductive ChartSection where
  | chart (data : List ℚ) (currentRule : ℚ)
  | noDataNotice
deriving DecidableEq, Repr

/-- One render of the page body (sections 5-7 of the script): the values
each section displays, as functions of the inputs of that run.  `series`
is `fetch_history(days)` for the selected window (line 130) and `hist365`
is the independent `fetch_history(365)` of line 172. -/
structure Rendered where
  currentRateCard : ℚ
  conversion : ℚ
  chartSec : ChartSection
  avg7Card : ℚ
  avg30Card : ℚ
  avg365Card : ℚ
  scoreVal : ℚ
  banner : Recommendation
deriving DecidableEq, Repr

/-- Sections 5-7 of the script as one pure render function. -/
def renderPage (usd_amount current_rate : ℚ) (series hist365 : List ℚ) :
    Rendered :=
  { currentRateCard := current_rate
    conversion := usd_amount * current_rate
    chartSec :=
      if series.isEmpty then ChartSection.noDataNotice
      else ChartSection.chart series current_rate
    avg7Card := avg7 hist365 current_rate
    avg30Card := avg30 hist365 current_rate
    avg365Card := avg365 hist365 current_rate
    scoreVal := score current_rate (avg7 hist365 current_rate)
      (avg30 hist365 current_rate) (avg365 hist365 current_rate)
    banner := recommend (score current_rate (avg7 hist365 current_rate)
      (avg30 hist365 current_rate) (avg365 hist365 current_rate)) }

/-- The score indicator terms are antitone in the current rate. -/
lemma score_term_antitone {c1 c2 : ℚ} (a w : ℚ) (h : c1 ≤ c2) (hw : 0 ≤ w) :
    (if c2 < a then w else 0) ≤ (if c1 < a then w else 0) := by
  split_ifs with h2 h1
  · exact le_refl w
  · exact absurd (lt_of_le_of_lt h h2) h1
  · exact hw
  · exact le_refl 0

end Soldol

namespace Soldol

/-- C2: for every current rate and triple of averages, the guidance score
is the sum of 0.30 when `current < avg365`, 0.50 when `current < avg30`
and 0.20 when `current < avg7` (stated as agreement with the scorer
transcribed from the spec's words); in particular for avg7=3.70,
avg30=3.75, avg365=3.80, current=3.72 the score is 0.80. -/
theorem C2_score_weighted_sum :
    (∀ current a7 a30 a365 : ℚ,
      score current a7 a30 a365 = specScore current a7 a30 a365) ∧
    score (372/100) (370/100) (375/100) (380/100) = 80/100 := by
  constructor
  · intro c a7 a30 a365
    unfold score specScore
    norm_num
  · unfold score
    norm_num

/-- C3: the recommendation is BUY exactly when the score is strictly
greater than 0.50; a score of exactly 0.50 (current below avg30 only)
yields WAIT/SELL. -/
theorem C3_buy_threshold_strict :
    (∀ s : ℚ, recommend s = Recommendation.buy ↔ 1/2 < s) ∧
    score 3 3 4 2 = 50/100 ∧
    recommend (score 3 3 4 2) = Recommendation.waitSell := by
  refine ⟨fun s => ?_, by unfold score; norm_num, ?_⟩
  · unfold recommend
    split_ifs with h
    · exact ⟨fun _ => h, fun _ => rfl⟩
    · refine ⟨fun heq => ?_, fun hlt => absurd hlt h⟩
      cases heq
  · have hs : score 3 3 4 2 = 50/100 := by unfold score; norm_num
    rw [hs]
    unfold recommend
    norm_num

/-- C6: the guidance score always lies in [0,1] and only takes values in
{0.00, 0.20, 0.30, 0.50, 0.70, 0.80, 1.00}; the condition subsets
{avg30} and {avg365, avg7} both yield exactly 0.50. -/
theorem C6_score_value_set :
    (∀ current a7 a30 a365 : ℚ,
      0 ≤ score current a7 a30 a365 ∧ score current a7 a30 a365 ≤ 1 ∧
      score current a7 a30 a365 ∈
        ({0, 20/100, 30/100, 50/100, 70/100, 80/100, 1} : Set ℚ)) ∧
    score 3 3 4 2 = 50/100 ∧ score 3 4 3 4 = 50/100 := by
  refine ⟨fun c a7 a30 a365 => ?_, by unfold score; norm_num,
    by unfold score; norm_num⟩
  unfold score
  split_ifs <;>
    norm_num [Set.mem_insert_iff, Set.mem_singleton_iff]

/-- C7: for fixed averages, the score is antitone in the current rate:
if c1 ≤ c2 then the score at c2 is at most the score at c1. -/
theorem C7_score_antitone (a7 a30 a365 c1 c2 : ℚ) (h : c1 ≤ c2) :
    score c2 a7 a30 a365 ≤ score c1 a7 a30 a365 := by
  unfold score
  exact add_le_add
    (add_le_add (score_term_antitone a365 (30/100) h (by norm_num))
      (score_term_antitone a30 (50/100) h (by norm_num)))
    (score_term_antitone a7 (20/100) h (by norm_num))

/-- Witness for C7 at a7 = a30 = a365 = 5, c1 = 3, c2 = 4. -/
theorem C7_score_antitone_witness :
    (3 : ℚ) ≤ 4 ∧ score 4 5 5 5 ≤ score 3 5 5 5 :=
  ⟨by norm_num, C7_score_antitone 5 5 5 3 4 (by norm_num)⟩

/-- C10: when the 365-day history series is empty, all three averages
fall back to the current rate, the score is 0.00 and the recommendation
is WAIT/SELL. -/
theorem C10_empty_history_waits (current : ℚ) :
    avg7 [] current = current ∧ avg30 [] current = current ∧
    avg365 [] current = current ∧
    score current (avg7 [] current) (avg30 [] current)
      (avg365 [] current) = 0 ∧
    recommend (score current (avg7 [] current) (avg30 [] current)
      (avg365 [] current)) = Recommendation.waitSell := by
  have h7 : avg7 [] current = current := by unfold avg7; norm_num
  have h30 : avg30 [] current = current := by unfold avg30; norm_num
  have h365 : avg365 [] current = current := by unfold avg365; norm_num
  have hs : score current (avg7 [] current) (avg30 [] current)
      (avg365 [] current) = 0 := by
    rw [h7, h30, h365]
    unfold score
    simp [lt_irrefl]
  refine ⟨h7, h30, h365, hs, ?_⟩
  rw [hs]
  unfold recommend
  norm_num

/-- C1 counterexample: for the 365-day window the fallback policy claimed
by the spec fails.  The series `[4]` has fewer than 365 entries, so the
claim prescribes the current rate 3 as the average; the code (line 175,
guard `len >= 1`) instead returns the mean 4 of the whole series. -/
theorem C1_counterexample :
    avg365 [4] 3 = 4 ∧ avg365 [4] 3 ≠ 3 := by
  constructor <;> · unfold avg365 mean; norm_num

/-- C1 amended: the 7- and 30-day averages are the mean of exactly the
last 7 (resp. 30) entries when the series has at least that many entries
and fall back to the current rate otherwise; the 365-day average is the
mean of the ENTIRE series whenever it is non-empty, and falls back to the
current rate only for an empty series. -/
theorem C1_amended_rolling_means (hist365 : List ℚ) (current : ℚ) :
    (7 ≤ hist365.length → avg7 hist365 current = (lastN 7 hist365).sum / 7) ∧
    (hist365.length < 7 → avg7 hist365 current = current) ∧
    (30 ≤ hist365.length →
      avg30 hist365 current = (lastN 30 hist365).sum / 30) ∧
    (hist365.length < 30 → avg30 hist365 current = current) ∧
    (1 ≤ hist365.length →
      avg365 hist365 current = hist365.sum / hist365.length) ∧
    (hist365.length = 0 → avg365 hist365 current = current) := by
  have key : ∀ n : ℕ, n ≤ hist365.length →
      mean (lastN n hist365) = (lastN n hist365).sum / n := by
    intro n hn
    unfold mean lastN
    rw [List.length_drop, Nat.sub_sub_self hn]
  refine ⟨?_, ?_, ?_, ?_, ?_, ?_⟩
  · intro h
    rw [avg7, if_pos h]
    exact key 7 h
  · intro h
    rw [avg7, if_neg (by omega)]
  · intro h
    rw [avg30, if_pos h]
    exact key 30 h
  · intro h
    rw [avg30, if_neg (by omega)]
  · intro h
    rw [avg365, if_pos h]
    rfl
  · intro h
    rw [avg365, if_neg (by omega)]

/-- Witness for C1 at a length-30 series (both long-enough branches), a
singleton series (both short branches of avg7/avg30 and the non-empty
branch of avg365) and the empty series. -/
theorem C1_amended_rolling_means_witness :
    avg7 (List.replicate 30 (2 : ℚ)) 5 =
      (lastN 7 (List.replicate 30 (2 : ℚ))).sum / 7 ∧
    avg7 [2] 5 = 5 ∧
    avg30 (List.replicate 30 (2 : ℚ)) 5 =
      (lastN 30 (List.replicate 30 (2 : ℚ))).sum / 30 ∧
    avg30 [2] 5 = 5 ∧
    avg365 [2] 5 = ([2] : List ℚ).sum / (([2] : List ℚ).length : ℚ) ∧
    avg365 ([] : List ℚ) 5 = 5 := by
  refine ⟨(C1_amended_rolling_means (List.replicate 30 2) 5).1 (by simp),
    (C1_amended_rolling_means [2] 5).2.1 (by simp),
    (C1_amended_rolling_means (List.replicate 30 2) 5).2.2.1 (by simp),
    (C1_amended_rolling_means [2] 5).2.2.2.1 (by simp),
    (C1_amended_rolling_means [2] 5).2.2.2.2.1 (by simp),
    (C1_amended_rolling_means ([] : List ℚ) 5).2.2.2.2.2 (by simp)⟩

/-- C4: at the failing input — auto-refresh off and a quote already held
in `st.session_state["fx"]` — the rerun triggered by the "Refresh now"
button performs no fetch and redisplays the stored quote unchanged,
whatever quote the feed would have returned: the guard
`auto_refresh or "fx" not in st.session_state` (line 89) is false, so
the claimed fresh fetch never happens. -/
theorem C4_manual_refresh_skips_fetch :
    ∀ fetched : Quote,
      loadFx false (some ⟨37/10, 0⟩) fetched = (⟨37/10, 0⟩, false) :=
  fun _ => rfl

/-- C5 counterexample: at elapsed = 59.5 s the timer already triggers
(remaining = 0.5 < 1) although `now - lastLoadedAt >= 60 s` is false, so
"triggers exactly when elapsed ≥ 60" and "triggers when remaining < 1"
are not equivalent. -/
theorem C5_counterexample :
    autoRefreshTriggers true (119/2) = true ∧ ¬ ((60 : ℚ) ≤ 119/2) := by
  constructor
  · unfold autoRefreshTriggers remainingSeconds
    have h : max (0 : ℚ) (60 - 119/2) = 1/2 := by
      rw [max_eq_right (by norm_num)]
      norm_num
    rw [h]
    norm_num
  · norm_num

/-- C5 amended: while auto-refresh is on, the countdown equals
max(0, 60 − elapsed) — explicitly 60 − elapsed while elapsed ≤ 60 and 0
beyond — and a new refresh cycle is triggered exactly when
elapsed > 59 s, i.e. when the countdown drops below 1 s (not at ≥ 60 s). -/
theorem C5_amended_timer (auto_refresh : Bool) (elapsed : ℚ) :
    (autoRefreshTriggers auto_refresh elapsed = true ↔
      auto_refresh = true ∧ 59 < elapsed) ∧
    (elapsed ≤ 60 → remainingSeconds elapsed = 60 - elapsed) ∧
    (60 ≤ elapsed → remainingSeconds elapsed = 0) := by
  refine ⟨?_, ?_, ?_⟩
  · unfold autoRefreshTriggers remainingSeconds
    simp only [Bool.and_eq_true, decide_eq_true_eq]
    constructor
    · rintro ⟨ha, hr⟩
      rcases max_lt_iff.mp hr with ⟨-, h2⟩
      exact ⟨ha, by linarith⟩
    · rintro ⟨ha, he⟩
      refine ⟨ha, max_lt_iff.mpr ⟨by norm_num, by linarith⟩⟩
  · intro h
    unfold remainingSeconds
    rw [max_eq_right (by linarith : (0 : ℚ) ≤ 60 - elapsed)]
  · intro h
    unfold remainingSeconds
    rw [max_eq_left (by linarith : 60 - elapsed ≤ (0 : ℚ))]

/-- Witness for C5 at elapsed = 60: the timer triggers and the countdown
reads 60 − 60 = 0. -/
theorem C5_amended_timer_witness :
    autoRefreshTriggers true 60 = true ∧
    remainingSeconds 60 = 60 - 60 ∧ remainingSeconds 60 = 0 :=
  ⟨(C5_amended_timer true 60).1.mpr ⟨rfl, by norm_num⟩,
   (C5_amended_timer true 60).2.1 (by norm_num),
   (C5_amended_timer true 60).2.2 (by norm_num)⟩

/-- C8: the latest-quote fetch returns the most recent intraday close
when the intraday frame has one; with an empty intraday frame it falls
back to the most recent daily close; and when no data point exists in
either frame it fails (returns no value). -/
theorem C8_latest_quote_fallback (intraday daily : List (Option ℚ)) (r : ℚ) :
    (intraday ≠ [] → (intraday.filterMap id).getLast? = some r →
      fetch_latest_rate intraday daily = some r) ∧
    (intraday = [] → (daily.filterMap id).getLast? = some r →
      fetch_latest_rate intraday daily = some r) ∧
    (intraday.filterMap id = [] → daily.filterMap id = [] →
      fetch_latest_rate intraday daily = none) := by
  refine ⟨?_, ?_, ?_⟩
  · intro hne hlast
    cases intraday with
    | nil => exact absurd rfl hne
    | cons a l => exact hlast
  · intro he hlast
    subst he
    exact hlast
  · intro hi hd
    cases intraday with
    | nil =>
      show (List.filterMap id daily).getLast? = none
      rw [hd]
      rfl
    | cons a l =>
      show (List.filterMap id (a :: l)).getLast? = none
      rw [hi]
      rfl

/-- Witness for C8: an intraday frame with a NaN hole yields its last
valid close 3.75; an empty intraday frame falls back to the daily close
3.80; two frames without any valid close yield no value. -/
theorem C8_latest_quote_fallback_witness :
    fetch_latest_rate [some (37/10), none, some (375/100)] [some 9]
      = some (375/100) ∧
    fetch_latest_rate [] [some (38/10), none] = some (38/10) ∧
    fetch_latest_rate [none] [] = none :=
  ⟨(C8_latest_quote_fallback [some (37/10), none, some (375/100)]
      [some 9] (375/100)).1 (by simp) rfl,
   (C8_latest_quote_fallback [] [some (38/10), none] (38/10)).2.1 rfl rfl,
   (C8_latest_quote_fallback [none] [] 0).2.2 rfl rfl⟩

/-- C9: when the fetched series for the selected window is empty, the
chart section renders the "no data" notice while every other section —
current-rate card, conversion, the three average cards, score and
recommendation banner — renders exactly the same values as with any
non-empty series: the failure is confined to the chart section and the
render as a whole still produces a complete page. -/
theorem C9_empty_chart_isolated (usd current : ℚ) (series hist365 : List ℚ) :
    (renderPage usd current [] hist365).chartSec
      = ChartSection.noDataNotice ∧
    (renderPage usd current series hist365).currentRateCard
      = (renderPage usd current [] hist365).currentRateCard ∧
    (renderPage usd current series hist365).conversion
      = (renderPage usd current [] hist365).conversion ∧
    (renderPage usd current series hist365).avg7Card
      = (renderPage usd current [] hist365).avg7Card ∧
    (renderPage usd current series hist365).avg30Card
      = (renderPage usd current [] hist365).avg30Card ∧
    (renderPage usd current series hist365).avg365Card
      = (renderPage usd current [] hist365).avg365Card ∧
    (renderPage usd current series hist365).scoreVal
      = (renderPage usd current [] hist365).scoreVal ∧
    (renderPage usd current series hist365).banner
      = (renderPage usd current [] hist365).banner ∧
    (renderPage usd current [] hist365).currentRateCard = current ∧
    (renderPage usd current [] hist365).conversion = usd * current ∧
    (renderPage usd current [] hist365).avg7Card = avg7 hist365 current ∧
    (renderPage usd current [] hist365).avg30Card = avg30 hist365 current ∧
    (renderPage usd current [] hist365).avg365Card = avg365 hist365 current ∧
    (renderPage usd current [] hist365).banner
      = recommend ((renderPage usd current [] hist365).scoreVal) :=
  ⟨rfl, rfl, rfl, rfl, rfl, rfl, rfl, rfl, rfl, rfl, rfl, rfl, rfl, rfl⟩

end Soldol
